import Mathlib

/-!
Shallow embedding of the brobiotic frontend (React/TypeScript) for
verification of its specification.  Each definition is translated from a
named source file of the repository; JavaScript truthiness of optional
string fields is modelled explicitly by `truthyS`.
-/

namespace Brobiotic

/-- JavaScript truthiness of an optional string: `undefined` and the empty
string are falsy, every other string is truthy. -/
def truthyS : Option String → Bool
  | none => false
  | some s => !s.isEmpty

/-! ## Types (src/frontend/src/types.ts, provided as src/unnamed/part_001) -/

/-- `KnowledgeLevel` union type from types.ts. -/
inductive KnowledgeLevel
  | expert
  | adjacent
  | lay_person
deriving DecidableEq, Repr

/-- `TranslationOptions` from types.ts. -/
structure TranslationOptions where
  target_language : String
deriving DecidableEq, Repr

/-- `SummarizationOptions` from types.ts. -/
structure SummarizationOptions where
  knowledge_level : KnowledgeLevel
deriving DecidableEq, Repr

/-- `ProcessRequest` from types.ts: the body of `POST /articles/process`.
Absent optional sub-options are `none`. -/
structure ProcessRequest where
  identifier : String
  translate : Option TranslationOptions := none
  summarize : Option SummarizationOptions := none
deriving DecidableEq, Repr

/-- `CitationMetrics` from types.ts.  The numeric fields are modelled as
rationals; none of the verified claims depends on their values. -/
structure CitationMetrics where
  citation_count : Nat
  citations_per_year : Option ℚ := none
  relative_citation_ratio : Option ℚ := none
  nih_percentile : Option ℚ := none
  expected_citations : Option ℚ := none
  field_citation_rate : Option ℚ := none
deriving DecidableEq, Repr

/-- `ArticleFetchResponse` from types.ts. -/
structure ArticleFetchResponse where
  article_id : String
  source : String
  pmcid : Option String
  doi : Option String
  title : String
  abstract : String
  authors : List String
  journal : String
  pub_date : String
  has_full_text : Bool
  citation_metrics : Option CitationMetrics := none
  from_cache : Bool
  cached_at : Option String
deriving DecidableEq, Repr

/-- `ProcessResponse` from types.ts.  Optional fields are `none` when the
JSON field is absent (`undefined`). -/
structure ProcessResponse where
  article_id : String
  title : String
  original_abstract : String
  translated_abstract : Option String := none
  translated_title : Option String := none
  summary : Option String := none
  key_findings : Option (List String) := none
  context : Option String := none
  acronyms : Option (List String) := none
  target_language : Option String := none
  knowledge_level : Option String := none
  from_cache : Bool := false
  cached_at : Option String := none
  result_id : Option String := none
deriving DecidableEq, Repr

/-- The `result_type` union `'translation' | 'summary'` of types.ts. -/
inductive ResultType
  | summary
  | translation
deriving DecidableEq, Repr

/-- `ReportBadOutputRequest` from types.ts: the declared body type of
`POST /articles/report`.  Its identifier field is `article_id`. -/
structure ReportBadOutputRequest where
  article_id : String
  result_type : ResultType
  target_language : Option String := none
  knowledge_level : Option String := none
  comment : Option String := none
deriving DecidableEq, Repr

/-- `ReportBadOutputResponse` from types.ts. -/
structure ReportBadOutputResponse where
  success : Bool
  new_result : ProcessResponse
deriving DecidableEq, Repr

/-! ## API client (src/frontend/src/api/client.ts, provided as
src/unnamed/part_000) -/

namespace ApiClient

/-- Outcome of `response.json()` on an error body: either it parses, in
which case its `detail` field is a string or absent (`Option String`), or
parsing rejects (`fail`). -/
inductive BodyParse
  | ok (detail : Option String)
  | fail
deriving DecidableEq, Repr

/-- The `error` object of `handleResponse`:
`await response.json().catch(() => ({ detail: 'Unknown error' }))` — on a
parse failure the catch handler substitutes `{ detail: 'Unknown error' }`. -/
def errorDetail : BodyParse → Option String
  | BodyParse.ok d => d
  | BodyParse.fail => some "Unknown error"

/-- The thrown message of `handleResponse` on a non-ok response:
`error.detail` when truthy, else the template literal
"HTTP error " followed by the response status — the generic message is
used only when `error.detail` is falsy (absent or the empty string). -/
def errorMessage (status : Nat) (b : BodyParse) : String :=
  match errorDetail b with
  | some d => if d.isEmpty then "HTTP error " ++ toString status else d
  | none => "HTTP error " ++ toString status

/-- `handleResponse` from client.ts: on `response.ok` return the parsed
body, otherwise throw `Error(errorMessage)`.  The typed success payload is
abstracted as `payload`. -/
def handleResponse {T : Type} (ok : Bool) (status : Nat) (b : BodyParse)
    (payload : T) : Except String T :=
  if ok then Except.ok payload else Except.error (errorMessage status b)

end ApiClient

/-! ## ArticleInput (src/frontend/src/components/ArticleInput.tsx) -/

namespace ArticleInput

/-- JavaScript's `String.prototype.trim`: strips whitespace from both
ends of the string, modelled structurally on the character list. -/
def jsTrim (s : String) : String :=
  String.mk
    (((s.data.dropWhile Char.isWhitespace).reverse.dropWhile
        Char.isWhitespace).reverse)

/-- `handleSubmit` of ArticleInput: after `preventDefault`, when
`identifier.trim()` is truthy it calls `onFetch(identifier.trim())`,
otherwise it does nothing.  The returned value is the argument of the
triggered `onFetch` call, if any. -/
def handleSubmit (identifier : String) : Option String :=
  if !(jsTrim identifier).isEmpty then some (jsTrim identifier) else none

/-- UI events the ArticleInput component reacts to: editing the text input
(`onChange`) and submitting the form. -/
inductive InputEvent
  | change (v : String)
  | submit
deriving DecidableEq, Repr

/-- Simulation state of ArticleInput: the `identifier` useState value and
the list of identifiers passed to `onFetch` so far. -/
structure InputSim where
  identifier : String := ""
  fetchCalls : List String := []
deriving DecidableEq, Repr

/-- One event step of ArticleInput.  The text input and the submit button
carry `disabled` while `isLoading`, so neither event can occur then; an
enabled submit runs `handleSubmit` on the current identifier. -/
def stepInput (isLoading : Bool) (s : InputSim) (e : InputEvent) : InputSim :=
  if isLoading then s
  else
    match e with
    | InputEvent.change v => { s with identifier := v }
    | InputEvent.submit =>
      match handleSubmit s.identifier with
      | some t => { s with fetchCalls := s.fetchCalls ++ [t] }
      | none => s

/-- A run of ArticleInput from the initial state over a list of events,
each tagged with the `isLoading` prop in force when it occurs. -/
def runInput (events : List (Bool × InputEvent)) : InputSim :=
  events.foldl (fun s be => stepInput be.fst s be.snd) {}

end ArticleInput

/-! ## OptionsPanel (src/frontend/src/components/OptionsPanel.tsx) -/

namespace OptionsPanel

/-- The options object built by OptionsPanel: optional `translate` and
`summarize` sub-options, as passed to `onProcess`. -/
structure ProcessOptions where
  translate : Option TranslationOptions := none
  summarize : Option SummarizationOptions := none
deriving DecidableEq, Repr

/-- `handleProcess` of OptionsPanel: starts with an empty options object,
adds `translate` when `translateEnabled`, adds `summarize` when
`summarizeEnabled`, and passes the result to `onProcess`. -/
def handleProcess (translateEnabled : Bool) (targetLanguage : String)
    (summarizeEnabled : Bool) (knowledgeLevel : KnowledgeLevel) :
    ProcessOptions :=
  { translate :=
      if translateEnabled then some { target_language := targetLanguage }
      else none,
    summarize :=
      if summarizeEnabled then some { knowledge_level := knowledgeLevel }
      else none }

/-- `canProcess` of OptionsPanel:
`hasArticle && (translateEnabled || summarizeEnabled)`. -/
def canProcess (hasArticle translateEnabled summarizeEnabled : Bool) : Bool :=
  hasArticle && (translateEnabled || summarizeEnabled)

/-- The `disabled` attribute of the Process Article button:
`isLoading || !canProcess`. -/
def processDisabled (isLoading c : Bool) : Bool :=
  isLoading || !c

/-- Whether the Process Article button is enabled in a given UI state. -/
def processEnabled (isLoading hasArticle translateEnabled
    summarizeEnabled : Bool) : Bool :=
  !(processDisabled isLoading
      (canProcess hasArticle translateEnabled summarizeEnabled))

end OptionsPanel

/-! ## ResultsDisplay (src/frontend/src/components/ResultsDisplay.tsx) -/

namespace ResultsDisplay

/-- The `TabType` union of ResultsDisplay. -/
inductive TabType
  | original
  | summary
  | translation
deriving DecidableEq, Repr

/-- `hasProcessedContent`:
`processedResult?.summary || processedResult?.translated_abstract`, as a
truth value (optional chaining on `null` gives `undefined`, which is
falsy). -/
def hasProcessedContent (processedResult : Option ProcessResponse) : Bool :=
  truthyS (processedResult.bind ProcessResponse.summary) ||
    truthyS (processedResult.bind ProcessResponse.translated_abstract)

/-- `effectiveTab`: when the active tab is `original` and processed
content exists, remap to `summary` when `processedResult?.summary` is
truthy, else to `translation`; otherwise keep the active tab. -/
def effectiveTab (activeTab : TabType)
    (processedResult : Option ProcessResponse) : TabType :=
  if activeTab = TabType.original && hasProcessedContent processedResult then
    if truthyS (processedResult.bind ProcessResponse.summary) then
      TabType.summary
    else TabType.translation
  else activeTab

/-- The `available` flag of each entry of the `tabs` array: `original` is
always available, `summary` and `translation` when their backing content
is truthy. -/
def tabAvailable (processedResult : Option ProcessResponse) :
    TabType → Bool
  | TabType.original => true
  | TabType.summary => truthyS (processedResult.bind ProcessResponse.summary)
  | TabType.translation =>
      truthyS (processedResult.bind ProcessResponse.translated_abstract)

/-- The object literal built by `handleReportClick` and passed to
`onReport`, field for field.  The code writes
`pmid: processedResult.pmid`, but `ProcessResponse` declares no `pmid`
field, so at run time that property access yields `undefined`; the object
carries a `pmid` property and no `article_id` property, although its
declared type `ReportBadOutputRequest` requires `article_id`. -/
structure SentReportPayload where
  pmid : Option String
  result_type : ResultType
  target_language : Option String
  knowledge_level : Option String
  comment : Option String
deriving DecidableEq, Repr

/-- `handleReportClick` of ResultsDisplay: reads an optional comment from
`window.prompt` (cancel gives `null`, modelled `none`), then builds the
request object.  `comment: comment || undefined` turns both `null` and the
empty string into `undefined`; `pmid: processedResult.pmid` reads a field
absent from `ProcessResponse`, hence `undefined` (`none`). -/
def handleReportClick (processedResult : ProcessResponse)
    (resultType : ResultType) (promptResult : Option String) :
    SentReportPayload :=
  { pmid := none,
    result_type := resultType,
    target_language := processedResult.target_language,
    knowledge_level := processedResult.knowledge_level,
    comment :=
      match promptResult with
      | some c => if c.isEmpty then none else some c
      | none => none }

end ResultsDisplay

/-! ## App (src/frontend/src/App.tsx) -/

namespace App

/-- The shell state of App: the four useState values `article`,
`processedResult`, `isLoading` and `error`. -/
structure AppState where
  article : Option ArticleFetchResponse := none
  processedResult : Option ProcessResponse := none
  isLoading : Bool := false
  error : Option String := none
deriving DecidableEq, Repr

/-- The synchronous prefix of `handleFetch`, executed before the network
call: `setIsLoading(true); setError(null); setProcessedResult(null)`. -/
def handleFetchStart (s : AppState) : AppState :=
  { s with isLoading := true, error := none, processedResult := none }

/-- `handleFetch` of App, run to completion with the network call's
outcome supplied: on success `setArticle(result)`, on failure
`setError(message); setArticle(null)`, and `setIsLoading(false)` in the
`finally` block. -/
def handleFetch (s : AppState)
    (outcome : Except String ArticleFetchResponse) : AppState :=
  let s1 := handleFetchStart s
  match outcome with
  | Except.ok r => { s1 with article := some r, isLoading := false }
  | Except.error e =>
      { s1 with error := some e, article := none, isLoading := false }

/-- The request body App's `handleProcess` passes to `processArticle`:
`identifier: article.article_id` spread with the options object from
OptionsPanel. -/
def processRequestBody (article : ArticleFetchResponse)
    (options : OptionsPanel.ProcessOptions) : ProcessRequest :=
  { identifier := article.article_id,
    translate := options.translate,
    summarize := options.summarize }

/-- `handleProcess` of App, run to completion with the network call's
outcome supplied: returns unchanged when no article is loaded; otherwise
`setIsLoading(true); setError(null)`, then on success
`setProcessedResult(result)`, on failure only `setError(message)`, and
`setIsLoading(false)` in the `finally` block. -/
def handleProcess (s : AppState)
    (outcome : Except String ProcessResponse) : AppState :=
  match s.article with
  | none => s
  | some _ =>
    let s1 := { s with isLoading := true, error := none }
    match outcome with
    | Except.ok r => { s1 with processedResult := some r, isLoading := false }
    | Except.error e => { s1 with error := some e, isLoading := false }

/-- `handleReport` of App, run to completion with the network call's
outcome supplied: on success `setProcessedResult(result.new_result)`, on
failure only `setError(message)`. -/
def handleReport (s : AppState)
    (outcome : Except String ReportBadOutputResponse) : AppState :=
  let s1 := { s with isLoading := true, error := none }
  match outcome with
  | Except.ok r =>
      { s1 with processedResult := some r.new_result, isLoading := false }
  | Except.error e => { s1 with error := some e, isLoading := false }

end App

/-! ## Concrete sample results used by witnesses and counterexamples -/

/-- A process result holding only a summary. -/
def sampleSummaryResult : ProcessResponse :=
  { article_id := "a1", title := "T", original_abstract := "A",
    summary := some "S" }

/-- A process result holding only a translated abstract. -/
def sampleTranslationResult : ProcessResponse :=
  { article_id := "a1", title := "T", original_abstract := "A",
    translated_abstract := some "TA" }

/-- A process result holding neither a summary nor a translated abstract. -/
def sampleBareResult : ProcessResponse :=
  { article_id := "a1", title := "T", original_abstract := "A" }

end Brobiotic

open Brobiotic

/-! ## Claims -/

/-- Claim C1: with the user's selection still the default original tab,
the effective tab resolves to summary when the summary field is populated
(also when both are, summary being preferred), to translation when only
the translated abstract is populated, and stays original when neither
is. -/
theorem C1_effective_tab_derivation (pr : ProcessResponse) :
    (truthyS pr.summary = true →
      ResultsDisplay.effectiveTab ResultsDisplay.TabType.original (some pr)
        = ResultsDisplay.TabType.summary)
    ∧ (truthyS pr.summary = false → truthyS pr.translated_abstract = true →
      ResultsDisplay.effectiveTab ResultsDisplay.TabType.original (some pr)
        = ResultsDisplay.TabType.translation)
    ∧ (truthyS pr.summary = false → truthyS pr.translated_abstract = false →
      ResultsDisplay.effectiveTab ResultsDisplay.TabType.original (some pr)
        = ResultsDisplay.TabType.original) := by
  cases hs : truthyS pr.summary <;>
    cases ht : truthyS pr.translated_abstract <;>
      simp [ResultsDisplay.effectiveTab, ResultsDisplay.hasProcessedContent,
        Option.bind, hs, ht]

/-- Witness for C1 at three concrete results: summary only, translation
only, and neither. -/
theorem C1_witness :
    ResultsDisplay.effectiveTab ResultsDisplay.TabType.original
        (some sampleSummaryResult) = ResultsDisplay.TabType.summary
    ∧ ResultsDisplay.effectiveTab ResultsDisplay.TabType.original
        (some sampleTranslationResult) = ResultsDisplay.TabType.translation
    ∧ ResultsDisplay.effectiveTab ResultsDisplay.TabType.original
        (some sampleBareResult) = ResultsDisplay.TabType.original :=
  ⟨(C1_effective_tab_derivation sampleSummaryResult).1 (by decide),
   (C1_effective_tab_derivation sampleTranslationResult).2.1 (by decide)
     (by decide),
   (C1_effective_tab_derivation sampleBareResult).2.2 (by decide)
     (by decide)⟩

/-- Claim C2 counterexample: a non-2xx response with an unparseable body
surfaces "Unknown error", not the generic "HTTP error 500" the claim
states, because the parse-failure catch handler substitutes a body with
detail "Unknown error". -/
theorem C2_counterexample :
    ApiClient.errorMessage 500 ApiClient.BodyParse.fail ≠ "HTTP error 500"
    ∧ ApiClient.errorMessage 500 ApiClient.BodyParse.fail = "Unknown error" := by
  constructor
  · decide
  · rfl

/-- Claim C2 (amended): on a non-2xx response, a parsed body with a
nonempty detail string surfaces exactly that detail; an unparseable body
surfaces "Unknown error"; a parsed body without a detail string surfaces
the generic "HTTP error <status>". -/
theorem C2_error_unwrapping (status : Nat) (d : String)
    (hd : d.isEmpty = false) :
    ApiClient.handleResponse false status (ApiClient.BodyParse.ok (some d))
        () = Except.error d
    ∧ ApiClient.handleResponse false status ApiClient.BodyParse.fail ()
        = Except.error "Unknown error"
    ∧ ApiClient.handleResponse false status (ApiClient.BodyParse.ok none) ()
        = Except.error ("HTTP error " ++ toString status) := by
  refine ⟨?_, rfl, rfl⟩
  simp [ApiClient.handleResponse, ApiClient.errorMessage,
    ApiClient.errorDetail, hd]

/-- Witness for C2 at status 404 and body detail "not found". -/
theorem C2_witness :
    ApiClient.handleResponse false 404
        (ApiClient.BodyParse.ok (some "not found")) ()
      = Except.error "not found" :=
  (C2_error_unwrapping 404 "not found" (by decide)).1

/-- Claim C3 counterexample: entering " x " and submitting twice with no
intervening change (both times while idle) triggers two fetch calls for
the trimmed identifier "x", not exactly one: the component tracks no last
triggered identifier. -/
theorem C3_counterexample :
    (ArticleInput.runInput
        [(false, ArticleInput.InputEvent.change " x "),
         (false, ArticleInput.InputEvent.submit),
         (false, ArticleInput.InputEvent.submit)]).fetchCalls = ["x", "x"]
    ∧ (ArticleInput.runInput
        [(false, ArticleInput.InputEvent.change " x "),
         (false, ArticleInput.InputEvent.submit),
         (false, ArticleInput.InputEvent.submit)]).fetchCalls.length ≠ 1 := by
  constructor
  · rfl
  · decide

/-- Claim C3 (amended): while a request is outstanding the disabled
controls suppress every event; while idle, a submit with a nonempty
trimmed identifier always triggers exactly one fetch with that trimmed
value (repeats included), and a submit with a blank identifier triggers
none. -/
theorem C3_submit_fetch_behavior (s : ArticleInput.InputSim)
    (e : ArticleInput.InputEvent) :
    ArticleInput.stepInput true s e = s
    ∧ ((ArticleInput.jsTrim s.identifier).isEmpty = false →
        (ArticleInput.stepInput false s
            ArticleInput.InputEvent.submit).fetchCalls
          = s.fetchCalls ++ [ArticleInput.jsTrim s.identifier])
    ∧ ((ArticleInput.jsTrim s.identifier).isEmpty = true →
        ArticleInput.stepInput false s ArticleInput.InputEvent.submit = s) := by
  refine ⟨rfl, ?_, ?_⟩ <;> intro h <;>
    simp [ArticleInput.stepInput, ArticleInput.handleSubmit, h]

/-- Witness for C3 at the concrete state with identifier "x" and no prior
fetch calls. -/
theorem C3_witness :
    (ArticleInput.stepInput false
        { identifier := "x", fetchCalls := [] }
        ArticleInput.InputEvent.submit).fetchCalls = ["x"] :=
  ((C3_submit_fetch_behavior { identifier := "x", fetchCalls := [] }
    ArticleInput.InputEvent.submit).2.1 (by decide)).trans (by decide)

/-- Claim C4 counterexample: with a request in flight (isLoading), an
article loaded and the summarize toggle on, `canProcess` holds but the
Process Article button is not enabled, so enabled is not equivalent to
"article loaded and a toggle on" in every UI state. -/
theorem C4_counterexample :
    OptionsPanel.canProcess true false true = true
    ∧ OptionsPanel.processEnabled true true false true = false := by
  decide

/-- Claim C4 (amended): the process submit control is enabled iff no
request is in flight AND an article is loaded AND at least one of the
translate / summarize toggles is on. -/
theorem C4_process_enabling (isLoading hasArticle translateEnabled
    summarizeEnabled : Bool) :
    OptionsPanel.processEnabled isLoading hasArticle translateEnabled
        summarizeEnabled
      = (!isLoading && hasArticle && (translateEnabled || summarizeEnabled)) := by
  cases isLoading <;> cases hasArticle <;> cases translateEnabled <;>
    cases summarizeEnabled <;> rfl

/-- Claim C5: a failed fetch clears the article state to null; a failed
process leaves the prior processed result unchanged. -/
theorem C5_failure_atomicity (s : App.AppState) (e : String) :
    (App.handleFetch s (Except.error e)).article = none
    ∧ (App.handleProcess s (Except.error e)).processedResult
        = s.processedResult := by
  refine ⟨rfl, ?_⟩
  cases h : s.article <;> simp [App.handleProcess, h]

/-- Claim C6: the process request body carries the loaded article's
identifier, a `translate` sub-option with the selected language exactly
when the translate toggle is on, and a `summarize` sub-option with the
selected level exactly when the summarize toggle is on; a disabled
sub-option contributes no field. -/
theorem C6_process_request_composition (a : ArticleFetchResponse)
    (translateEnabled summarizeEnabled : Bool) (lang : String)
    (level : KnowledgeLevel) :
    (App.processRequestBody a
        (OptionsPanel.handleProcess translateEnabled lang summarizeEnabled
          level)).identifier = a.article_id
    ∧ (App.processRequestBody a
        (OptionsPanel.handleProcess translateEnabled lang summarizeEnabled
          level)).translate
        = (if translateEnabled then some { target_language := lang }
           else none)
    ∧ (App.processRequestBody a
        (OptionsPanel.handleProcess translateEnabled lang summarizeEnabled
          level)).summarize
        = (if summarizeEnabled then some { knowledge_level := level }
           else none) :=
  ⟨rfl, rfl, rfl⟩

/-- Claim C7: the report request built by `handleReportClick` always
carries `pmid = undefined` — the code reads `processedResult.pmid`, a
field `ProcessResponse` does not declare — and carries no `article_id`
property at all, although the declared request type
`ReportBadOutputRequest` requires one; with no comment entered the
comment is `undefined`; on success the displayed result is replaced
wholesale by the response's `new_result`. -/
theorem C7_report_pmid_bug (pr : ProcessResponse) (rt : ResultType)
    (s : App.AppState) (resp : ReportBadOutputResponse) :
    (ResultsDisplay.handleReportClick pr rt none).pmid = none
    ∧ (ResultsDisplay.handleReportClick pr rt none).comment = none
    ∧ (App.handleReport s (Except.ok resp)).processedResult
        = some resp.new_result :=
  ⟨rfl, rfl, rfl⟩

/-- Claim C8 counterexample: the original tab is always available, yet
selecting it while a result with a summary is displayed does not make it
the effective tab — the selection is remapped away, so manual selections
do not all persist. -/
theorem C8_counterexample :
    ResultsDisplay.tabAvailable (some sampleSummaryResult)
        ResultsDisplay.TabType.original = true
    ∧ ResultsDisplay.effectiveTab ResultsDisplay.TabType.original
        (some sampleSummaryResult) ≠ ResultsDisplay.TabType.original := by
  decide

/-- Claim C8 (amended): a manual selection of the summary or translation
tab persists — the effective tab equals the selection whatever the
current result holds (re-rendering cannot change it, `effectiveTab` being
a pure function of the stored selection and the result); a manual
selection of the original tab is effective exactly when the current
result holds neither a truthy summary nor a truthy translated
abstract. -/
theorem C8_manual_tab_persistence (t : ResultsDisplay.TabType)
    (pr : Option ProcessResponse) :
    (t ≠ ResultsDisplay.TabType.original →
      ResultsDisplay.effectiveTab t pr = t)
    ∧ (ResultsDisplay.effectiveTab ResultsDisplay.TabType.original pr
          = ResultsDisplay.TabType.original
        ↔ ResultsDisplay.hasProcessedContent pr = false) := by
  constructor
  · intro h
    cases t <;> simp_all [ResultsDisplay.effectiveTab]
  · cases hpc : ResultsDisplay.hasProcessedContent pr <;>
      cases hts : truthyS (pr.bind ProcessResponse.summary) <;>
        simp [ResultsDisplay.effectiveTab, hpc, hts]

/-- Witness for C8: a manual selection of the summary tab stays effective
even while a result with a summary is displayed. -/
theorem C8_witness :
    ResultsDisplay.effectiveTab ResultsDisplay.TabType.summary
        (some sampleSummaryResult) = ResultsDisplay.TabType.summary :=
  (C8_manual_tab_persistence ResultsDisplay.TabType.summary
    (some sampleSummaryResult)).1 (by decide)

/-- Claim C9: whenever the current result holds a truthy summary or
translated abstract, the effective tab is never original, whatever tab
the user has selected. -/
theorem C9_no_original_with_content (t : ResultsDisplay.TabType)
    (pr : Option ProcessResponse)
    (h : ResultsDisplay.hasProcessedContent pr = true) :
    ResultsDisplay.effectiveTab t pr ≠ ResultsDisplay.TabType.original := by
  cases t <;>
    cases hts : truthyS (pr.bind ProcessResponse.summary) <;>
      simp [ResultsDisplay.effectiveTab, h, hts]

/-- Witness for C9: with a summary present, even selecting original
yields a non-original effective tab. -/
theorem C9_witness :
    ResultsDisplay.hasProcessedContent (some sampleSummaryResult) = true
    ∧ ResultsDisplay.effectiveTab ResultsDisplay.TabType.original
        (some sampleSummaryResult) ≠ ResultsDisplay.TabType.original :=
  ⟨by decide,
   C9_no_original_with_content ResultsDisplay.TabType.original
     (some sampleSummaryResult) (by decide)⟩

/-- Claim C10: every fetch clears the prior processed result before the
network call (and it stays cleared whatever the outcome) while leaving
the article untouched until the outcome arrives; after a failed fetch the
whole shell state is: no article, no processed result, not loading, and
the error message set — nothing else changed. -/
theorem C10_fetch_clears_result (s : App.AppState) (e : String)
    (r : ArticleFetchResponse) :
    (App.handleFetchStart s).processedResult = none
    ∧ (App.handleFetchStart s).article = s.article
    ∧ (App.handleFetch s (Except.ok r)).processedResult = none
    ∧ App.handleFetch s (Except.error e)
        = { article := none, processedResult := none, isLoading := false,
            error := some e } :=
  ⟨rfl, rfl, rfl, rfl⟩
